import Mathlib

/-!
A shallow embedding of the constraint-validation engine of an ISO 20022
message library written in Go (`iso20022.go`), together with theorems that
settle the specification claims about that engine.

Modelling conventions:
* Go `error` results of `Validate` methods become `Option ValidationErrors`
  (`none` models a `nil` error).
* Primitive validators returning a single `error` become
  `Option ValidationError`.
* Go pointers (`*T`) become `Option T`; Go slices become `List`.
* Go `float64` fields become `GoFloat`: every finite IEEE double is an
  exact rational, carried by `GoFloat.val`, and the special values NaN and
  the two infinities are explicit constructors; `GoFloat.le`/`GoFloat.lt`
  give the IEEE comparison semantics (every comparison against NaN is
  false), which is all the validators in scope do with amounts.
* Go `len` on strings counts UTF-8 bytes, modelled by `String.utf8ByteSize`.
* The fixed regular expressions of the source are modelled by decidable
  character-list matchers, one per pattern.
* `reflect`-based zero-value checks are modelled by the `GoZero` class with
  one instance per concrete type the Go code passes to `validateRequired`.
-/

namespace ISO20022

/-- The single-quote character, used by the Go `fmt` format strings that
render violations. -/
def sq : String := String.singleton (Char.ofNat 39)

/-- `ValidationError` from the source: a violation with field context. -/
structure ValidationError where
  Field : String
  Message : String
deriving DecidableEq

/-- `ValidationError.Error()`: renders one violation. -/
def ValidationError.error (e : ValidationError) : String :=
  "Field " ++ sq ++ e.Field ++ sq ++ ": " ++ e.Message

/-- `ValidationErrors`: a list of violations. -/
abbrev ValidationErrors := List ValidationError

/-- Go `strings.Join`: concatenation with a separator between elements. -/
def goStringsJoin : List String → String → String
  | [], _ => ""
  | [x], _ => x
  | x :: xs, sep => x ++ sep ++ goStringsJoin xs sep

/-- `ValidationErrors.Error()`: the empty list renders as `""`, otherwise the
rendered violations are joined with `"; "`. -/
def ValidationErrors.error (errs : ValidationErrors) : String :=
  if errs.isEmpty then ""
  else goStringsJoin (errs.map ValidationError.error) "; "

/-- `ValidationErrors.HasErrors()`. -/
def hasErrors (errs : ValidationErrors) : Bool :=
  errs.length > 0

/-- The `if errs.HasErrors() { return errs }; return nil` epilogue shared by
every `Validate` method. -/
def finish (errs : ValidationErrors) : Option ValidationErrors :=
  if hasErrors errs then some errs else none

/-- Collect the result of one primitive check into the running error list
(`if err != nil { errs = append(errs, err) }`). -/
def collect : Option ValidationError → ValidationErrors
  | some e => [e]
  | none => []

/-- `if err := required; err != nil { append(errs, err) } else { rest }`:
further checks on a field run only when its presence check passed. -/
def requiredThen : Option ValidationError → ValidationErrors → ValidationErrors
  | some e, _ => [e]
  | none, rest => rest

/-- `if err := x.Validate(); err != nil { errs = append(errs,
ValidationError{Field: f, Message: err.Error()}) }`: a nested structure's
violations are folded into a single violation whose message is the rendered
join of the nested list. -/
def wrap (fieldName : String) : Option ValidationErrors → ValidationErrors
  | some es => [⟨fieldName, ValidationErrors.error es⟩]
  | none => []

/-- `if ptr != nil { if err := ptr.Validate(); err != nil { ... } }`. -/
def wrapOpt (fieldName : String) (validate : α → Option ValidationErrors) :
    Option α → ValidationErrors
  | some x => wrap fieldName (validate x)
  | none => []

/-- `if ptr != nil { if err := check(*ptr); err != nil { append } }` for a
primitive check attached to an optional scalar field. -/
def optCheck : Option α → (α → Option ValidationError) → ValidationErrors
  | some x, check => collect (check x)
  | none, _ => []

/-- Go `reflect`-style zero-value test, one instance per concrete type that
the source passes to `validateRequired`. -/
class GoZero (α : Type) where
  isZero : α → Bool

instance : GoZero String := ⟨fun s => s == ""⟩

/-- `validateRequired` on a non-pointer argument: violation iff the value
equals its Go zero value. -/
def validateRequired [GoZero α] (value : α) (fieldName : String) :
    Option ValidationError :=
  if GoZero.isZero value then some ⟨fieldName, "is required but is empty"⟩
  else none

/-- `validateRequired` on a pointer argument: nil pointers report
"is required but is nil", otherwise the pointee is zero-checked. -/
def validateRequiredPtr [GoZero α] (value : Option α) (fieldName : String) :
    Option ValidationError :=
  match value with
  | none => some ⟨fieldName, "is required but is nil"⟩
  | some v => validateRequired v fieldName

/-- Go `len` on a string: its UTF-8 byte count, computed over the
character list. -/
def goLen (s : String) : Nat := (s.data.map Char.utf8Size).sum

/-- `validateStringLength`: XSD min/max length bounds on the byte length. -/
def validateStringLength (value : String) (minLen maxLen : Nat)
    (fieldName : String) : Option ValidationError :=
  if goLen value < minLen then
    some ⟨fieldName,
      "length " ++ toString (goLen value) ++ " is below minimum " ++
        toString minLen⟩
  else if goLen value > maxLen then
    some ⟨fieldName,
      "length " ++ toString (goLen value) ++ " exceeds maximum " ++
        toString maxLen⟩
  else none

/-- `validatePattern`: the caller supplies the outcome of matching one of the
source's fixed regular expressions (each modelled by a decidable matcher
below) together with the pattern text used in the message.  The fixed
patterns always compile, so the compile-error branch of the source cannot
fire and is not modelled. -/
def validatePattern (matched : Bool) (pattern : String) (fieldName : String) :
    Option ValidationError :=
  if matched then none
  else some ⟨fieldName,
    "does not match required pattern " ++ sq ++ pattern ++ sq⟩

/-- `[A-Z]` as a character test. -/
def isUpperAZ (c : Char) : Bool := decide ('A' ≤ c) && decide (c ≤ 'Z')

/-- `[0-9]` as a character test (Go `\d`). -/
def isDigit09 (c : Char) : Bool := c.isDigit

/-- `[A-Z0-9]` as a character test. -/
def isUpperAlnum (c : Char) : Bool := isUpperAZ c || isDigit09 c

/-- Matcher for `^[A-Z]{3}$` (ISO 4217 currency shape). -/
def currencyPatternMatch (s : String) : Bool :=
  match s.data with
  | [a, b, c] => isUpperAZ a && isUpperAZ b && isUpperAZ c
  | _ => false

/-- Matcher for `^[A-Z]{2}$` (ISO 3166-1 alpha-2 country shape). -/
def countryPatternMatch (s : String) : Bool :=
  match s.data with
  | [a, b] => isUpperAZ a && isUpperAZ b
  | _ => false

/-- Matcher for `^[A-Z]{4}[A-Z]{2}[A-Z0-9]{2}([A-Z0-9]{3})?$` (BIC shape). -/
def bicPatternMatch (s : String) : Bool :=
  match s.data with
  | [a, b, c, d, e, f, g, h] =>
      isUpperAZ a && isUpperAZ b && isUpperAZ c && isUpperAZ d &&
      isUpperAZ e && isUpperAZ f && isUpperAlnum g && isUpperAlnum h
  | [a, b, c, d, e, f, g, h, i, j, k] =>
      isUpperAZ a && isUpperAZ b && isUpperAZ c && isUpperAZ d &&
      isUpperAZ e && isUpperAZ f && isUpperAlnum g && isUpperAlnum h &&
      isUpperAlnum i && isUpperAlnum j && isUpperAlnum k
  | _ => false

/-- Matcher for `^[A-Z]{2}[0-9]{2}[A-Z0-9]{1,30}$` (basic IBAN shape). -/
def ibanPatternMatch (s : String) : Bool :=
  match s.data with
  | a :: b :: c :: d :: rest =>
      isUpperAZ a && isUpperAZ b && isDigit09 c && isDigit09 d &&
      decide (1 ≤ rest.length) && decide (rest.length ≤ 30) &&
      rest.all isUpperAlnum
  | _ => false

/-- Matcher for `^[A-Z0-9]{18}[0-9]{2}$` (LEI shape). -/
def leiPatternMatch (s : String) : Bool :=
  decide (s.data.length = 20) && (s.data.take 18).all isUpperAlnum &&
    (s.data.drop 18).all isDigit09

/-- Matcher for `^[0-9]{1,15}$` (Max15NumericText). -/
def max15NumericMatch (s : String) : Bool :=
  decide (1 ≤ s.data.length) && decide (s.data.length ≤ 15) &&
    s.data.all isDigit09

/-- Matcher for `^\d{4}-\d{2}-\d{2}$` (ISO date shape). -/
def datePatternMatch (s : String) : Bool :=
  match s.data with
  | [y1, y2, y3, y4, h1, m1, m2, h2, d1, d2] =>
      isDigit09 y1 && isDigit09 y2 && isDigit09 y3 && isDigit09 y4 &&
      (h1 == '-') && isDigit09 m1 && isDigit09 m2 && (h2 == '-') &&
      isDigit09 d1 && isDigit09 d2
  | _ => false

/-- The `(\.\d{3}Z?)?` tail of the datetime pattern: nothing, or a dot with
exactly three digits, optionally followed by `Z`.  A bare `Z` with no
fractional seconds is not matched. -/
def fracSecondMatch : List Char → Bool
  | [] => true
  | ['.', a, b, c] => isDigit09 a && isDigit09 b && isDigit09 c
  | ['.', a, b, c, 'Z'] => isDigit09 a && isDigit09 b && isDigit09 c
  | _ => false

/-- Matcher for `^\d{4}-\d{2}-\d{2}T\d{2}:\d{2}:\d{2}(\.\d{3}Z?)?$`. -/
def dateTimePatternMatch (s : String) : Bool :=
  match s.data with
  | y1 :: y2 :: y3 :: y4 :: '-' :: mo1 :: mo2 :: '-' :: d1 :: d2 :: 'T' ::
      h1 :: h2 :: ':' :: mi1 :: mi2 :: ':' :: s1 :: s2 :: rest =>
      isDigit09 y1 && isDigit09 y2 && isDigit09 y3 && isDigit09 y4 &&
      isDigit09 mo1 && isDigit09 mo2 && isDigit09 d1 && isDigit09 d2 &&
      isDigit09 h1 && isDigit09 h2 && isDigit09 mi1 && isDigit09 mi2 &&
      isDigit09 s1 && isDigit09 s2 && fracSecondMatch rest
  | _ => false

/-- Numeric value of a decimal digit character. -/
def digitVal (c : Char) : Nat := c.toNat - 48

/-- Two decimal digit characters as a number. -/
def digits2 (a b : Char) : Nat := 10 * digitVal a + digitVal b

/-- Four decimal digit characters as a number. -/
def digits4 (a b c d : Char) : Nat :=
  1000 * digitVal a + 100 * digitVal b + 10 * digitVal c + digitVal d

/-- Gregorian leap-year rule, as used by Go `time`. -/
def isLeapYear (y : Nat) : Bool :=
  (y % 4 == 0 && y % 100 != 0) || (y % 400 == 0)

/-- Days in a month, as used by Go `time.Parse` range checking. -/
def daysInMonth (y m : Nat) : Nat :=
  if m = 2 then (if isLeapYear y then 29 else 28)
  else if m = 4 ∨ m = 6 ∨ m = 9 ∨ m = 11 then 30
  else 31

/-- Go `time.Parse` range check for a year-month-day triple. -/
def validYMD (y m d : Nat) : Bool :=
  decide (1 ≤ m) && decide (m ≤ 12) && decide (1 ≤ d) &&
    decide (d ≤ daysInMonth y m)

/-- Go `time.Parse` range check for an hour-minute-second triple. -/
def validHMS (h mi s : Nat) : Bool :=
  decide (h ≤ 23) && decide (mi ≤ 59) && decide (s ≤ 59)

/-- Go `time.Parse("2006-01-02", date)` succeeding: the layout shape must
match exactly and the calendar components must be in range. -/
def dateParseOk (s : String) : Bool :=
  match s.data with
  | [y1, y2, y3, y4, '-', m1, m2, '-', d1, d2] =>
      isDigit09 y1 && isDigit09 y2 && isDigit09 y3 && isDigit09 y4 &&
      isDigit09 m1 && isDigit09 m2 && isDigit09 d1 && isDigit09 d2 &&
      validYMD (digits4 y1 y2 y3 y4) (digits2 m1 m2) (digits2 d1 d2)
  | _ => false

/-- The source's three-layout `time.Parse` loop for datetimes succeeding:
one of the layouts `2006-01-02T15:04:05`, with `.000` or `.000Z` appended,
matches the input exactly and the calendar components are in range. -/
def dateTimeParseOk (s : String) : Bool :=
  match s.data with
  | y1 :: y2 :: y3 :: y4 :: '-' :: mo1 :: mo2 :: '-' :: d1 :: d2 :: 'T' ::
      h1 :: h2 :: ':' :: mi1 :: mi2 :: ':' :: s1 :: s2 :: rest =>
      isDigit09 y1 && isDigit09 y2 && isDigit09 y3 && isDigit09 y4 &&
      isDigit09 mo1 && isDigit09 mo2 && isDigit09 d1 && isDigit09 d2 &&
      isDigit09 h1 && isDigit09 h2 && isDigit09 mi1 && isDigit09 mi2 &&
      isDigit09 s1 && isDigit09 s2 && fracSecondMatch rest &&
      validYMD (digits4 y1 y2 y3 y4) (digits2 mo1 mo2) (digits2 d1 d2) &&
      validHMS (digits2 h1 h2) (digits2 mi1 mi2) (digits2 s1 s2)
  | _ => false

/-- Pattern text `^[A-Z]{3}$` as it appears in rendered messages. -/
def currencyPatternText : String := "^[A-Z]\x7b3\x7d$"

/-- Pattern text `^[A-Z]{2}$`. -/
def countryPatternText : String := "^[A-Z]\x7b2\x7d$"

/-- Pattern text of the BIC regex. -/
def bicPatternText : String :=
  "^[A-Z]\x7b4\x7d[A-Z]\x7b2\x7d[A-Z0-9]\x7b2\x7d([A-Z0-9]\x7b3\x7d)?$"

/-- Pattern text of the IBAN regex. -/
def ibanPatternText : String :=
  "^[A-Z]\x7b2\x7d[0-9]\x7b2\x7d[A-Z0-9]\x7b1,30\x7d$"

/-- Pattern text of the LEI regex. -/
def leiPatternText : String := "^[A-Z0-9]\x7b18\x7d[0-9]\x7b2\x7d$"

/-- Pattern text `^[0-9]{1,15}$`. -/
def max15NumericPatternText : String := "^[0-9]\x7b1,15\x7d$"

/-- `validateCurrency`: byte length exactly 3, then the `^[A-Z]{3}$` shape. -/
def validateCurrency (code : String) (fieldName : String) :
    Option ValidationError :=
  match validateStringLength code 3 3 fieldName with
  | some e => some e
  | none => validatePattern (currencyPatternMatch code) currencyPatternText
      fieldName

/-- `validateCountryCode`. -/
def validateCountryCode (code : String) (fieldName : String) :
    Option ValidationError :=
  match validateStringLength code 2 2 fieldName with
  | some e => some e
  | none => validatePattern (countryPatternMatch code) countryPatternText
      fieldName

/-- `validateBIC`. -/
def validateBIC (bic : String) (fieldName : String) : Option ValidationError :=
  match validateStringLength bic 8 11 fieldName with
  | some e => some e
  | none => validatePattern (bicPatternMatch bic) bicPatternText fieldName

/-- `validateIBAN`: byte length 15 to 34, then the basic IBAN shape.  Present
in the source but never invoked by any `Validate` method. -/
def validateIBAN (iban : String) (fieldName : String) :
    Option ValidationError :=
  match validateStringLength iban 15 34 fieldName with
  | some e => some e
  | none => validatePattern (ibanPatternMatch iban) ibanPatternText fieldName

/-- `validateLEI`. -/
def validateLEI (lei : String) (fieldName : String) : Option ValidationError :=
  match validateStringLength lei 20 20 fieldName with
  | some e => some e
  | none => validatePattern (leiPatternMatch lei) leiPatternText fieldName

/-- `validateDate`: empty string, then the `^\d{4}-\d{2}-\d{2}$` shape, then
a calendar parse. -/
def validateDate (date : String) (fieldName : String) :
    Option ValidationError :=
  if date == "" then some ⟨fieldName, "date is required"⟩
  else if (validatePattern (datePatternMatch date) "" fieldName).isSome then
    some ⟨fieldName, "date must be in YYYY-MM-DD format"⟩
  else if !dateParseOk date then some ⟨fieldName, "invalid date value"⟩
  else none

/-- `validateDateTime`: empty string, then the datetime shape, then the
three-layout calendar parse. -/
def validateDateTime (dateTime : String) (fieldName : String) :
    Option ValidationError :=
  if dateTime == "" then some ⟨fieldName, "datetime is required"⟩
  else if (validatePattern (dateTimePatternMatch dateTime) "" fieldName).isSome
    then some ⟨fieldName, "datetime must be in YYYY-MM-DDTHH:MM:SS format"⟩
  else if !dateTimeParseOk dateTime then
    some ⟨fieldName, "invalid datetime value"⟩
  else none

/-- Stand-in for Go `time.Time`.  The validators in scope only inspect the
presence of `*time.Time` pointers, never a time value. -/
structure GoTime where
  unixNanos : Int
deriving DecidableEq

/-- Go `float64`.  Every finite IEEE double is exactly representable as a
rational, carried by `val`; NaN and the two infinities are explicit.  The
validators in scope only ever compare amounts (`a.Value <= 0`), so the
comparison functions below capture the full observable behavior. -/
inductive GoFloat where
  | val : Rat → GoFloat
  | posInf : GoFloat
  | negInf : GoFloat
  | nan : GoFloat
deriving DecidableEq

/-- IEEE `<=` on `float64`: false whenever either side is NaN, the
infinities at the extremes, rational order on finite values. -/
def GoFloat.le : GoFloat → GoFloat → Bool
  | .nan, _ => false
  | _, .nan => false
  | .negInf, _ => true
  | _, .negInf => false
  | _, .posInf => true
  | .posInf, _ => false
  | .val x, .val y => decide (x ≤ y)

/-- IEEE `<` on `float64`: false whenever either side is NaN, the
infinities at the extremes, rational order on finite values. -/
def GoFloat.lt : GoFloat → GoFloat → Bool
  | .nan, _ => false
  | _, .nan => false
  | .negInf, .negInf => false
  | .negInf, _ => true
  | _, .negInf => false
  | .posInf, _ => false
  | _, .posInf => true
  | .val x, .val y => decide (x < y)

/-- `ActiveCurrencyAndAmount`. -/
structure ActiveCurrencyAndAmount where
  Value : GoFloat
  Currency : String
deriving DecidableEq

/-- `ActiveOrHistoricCurrencyAndAmount`. -/
structure ActiveOrHistoricCurrencyAndAmount where
  Value : GoFloat
  Currency : String
deriving DecidableEq

/-- `ActiveCurrencyAndAmount.Validate`: the amount must be positive; the
currency must be present and pass `validateCurrency`.  Both checks run and
both violations are reported together when both fail. -/
def ActiveCurrencyAndAmount.Validate (a : ActiveCurrencyAndAmount) :
    Option ValidationErrors :=
  finish (
    (if GoFloat.le a.Value (GoFloat.val 0) then
      [⟨"Value", "must be positive"⟩] else [])
    ++ (if a.Currency == "" then [⟨"Ccy", "is required"⟩]
        else collect (validateCurrency a.Currency "Ccy")))

/-- `AccountSchemeName`. -/
structure AccountSchemeName where
  Code : Option String
  Proprietary : Option String
deriving DecidableEq

/-- `GenericAccountIdentification`. -/
structure GenericAccountIdentification where
  ID : String
  SchemeName : Option AccountSchemeName
  Issuer : Option String
deriving DecidableEq

/-- `AccountIdentification`. -/
structure AccountIdentification where
  IBAN : Option String
  Other : Option GenericAccountIdentification
deriving DecidableEq

/-- `CashAccountType`. -/
structure CashAccountType where
  Code : Option String
  Proprietary : Option String
deriving DecidableEq

/-- `ProxyAccountType`. -/
structure ProxyAccountType where
  Code : Option String
  Proprietary : Option String
deriving DecidableEq

/-- `ProxyAccountIdentification` (the Go field `Type` is rendered `Type_`
because `Type` is reserved in Lean). -/
structure ProxyAccountIdentification where
  Type_ : Option ProxyAccountType
  ID : String
deriving DecidableEq

/-- `CashAccount` (the Go field `Type` is rendered `Type_`). -/
structure CashAccount where
  ID : AccountIdentification
  Type_ : Option CashAccountType
  Currency : Option String
  Name : Option String
  Proxy : Option ProxyAccountIdentification
deriving DecidableEq

/-- `ClearingSystemIdentificationSecondary`. -/
structure ClearingSystemIdentificationSecondary where
  Code : Option String
  Proprietary : Option String
deriving DecidableEq

/-- `ClearingSystemIdentification`. -/
structure ClearingSystemIdentification where
  Code : Option String
  Proprietary : Option String
deriving DecidableEq

/-- `ClearingSystemMemberIdentification`. -/
structure ClearingSystemMemberIdentification where
  ClearingSystemID : Option ClearingSystemIdentification
  MemberID : String
deriving DecidableEq

/-- `FinancialIdentificationSchemeName`. -/
structure FinancialIdentificationSchemeName where
  Code : Option String
  Proprietary : Option String
deriving DecidableEq

/-- `GenericFinancialIdentification`. -/
structure GenericFinancialIdentification where
  ID : String
  SchemeName : Option FinancialIdentificationSchemeName
  Issuer : Option String
deriving DecidableEq

/-- `PostalAddress` (the legacy postal address; the validators in scope only
inspect the presence of `*PostalAddress` pointers). -/
structure PostalAddress where
  AddressType : Option String
  Department : Option String
  SubDepartment : Option String
  StreetName : Option String
  BuildingNumber : Option String
  BuildingName : Option String
  Floor : Option String
  PostBox : Option String
  Room : Option String
  PostalCode : Option String
  TownName : Option String
  TownLocationName : Option String
  DistrictName : Option String
  CountrySubDivision : Option String
  Country : Option String
  AddressLines : List String
deriving DecidableEq

/-- `FinancialInstitutionIdentification18`. -/
structure FinancialInstitutionIdentification18 where
  BankIdentifierCode : Option String
  ClearingSystemMemberID : Option ClearingSystemMemberIdentification
  LegalEntityIdentifier : Option String
  Name : Option String
  PostalAddress : Option PostalAddress
  Other : Option GenericFinancialIdentification
deriving DecidableEq

/-- Go `reflect.Value.IsZero` on a `FinancialInstitutionIdentification18`
value: every field must be its zero value (nil for the pointer fields). -/
instance : GoZero FinancialInstitutionIdentification18 :=
  ⟨fun f => f.BankIdentifierCode.isNone && f.ClearingSystemMemberID.isNone &&
    f.LegalEntityIdentifier.isNone && f.Name.isNone &&
    f.PostalAddress.isNone && f.Other.isNone⟩

/-- `FinancialInstitutionIdentification18.Validate`. -/
def FinancialInstitutionIdentification18.Validate
    (f : FinancialInstitutionIdentification18) : Option ValidationErrors :=
  finish (
    optCheck f.BankIdentifierCode (fun s => validateBIC s "BankIdentifierCode")
    ++ optCheck f.LegalEntityIdentifier
        (fun s => validateLEI s "LegalEntityIdentifier")
    ++ optCheck f.Name (fun s => validateStringLength s 1 140 "Name"))

/-- `BranchData3`. -/
structure BranchData3 where
  ID : Option String
  LegalEntityIdentifier : Option String
  Name : Option String
  PostalAddress : Option PostalAddress
deriving DecidableEq

/-- `BranchData3.Validate` (its `PostalAddress` is not validated by the
source). -/
def BranchData3.Validate (b : BranchData3) : Option ValidationErrors :=
  finish (
    optCheck b.ID (fun s => validateStringLength s 1 35 "ID")
    ++ optCheck b.LegalEntityIdentifier
        (fun s => validateLEI s "LegalEntityIdentifier")
    ++ optCheck b.Name (fun s => validateStringLength s 1 140 "Name"))

/-- `BranchAndFinancialInstitutionIdentification6`. -/
structure BranchAndFinancialInstitutionIdentification6 where
  FinancialInstitutionID : FinancialInstitutionIdentification18
  BranchID : Option BranchData3
deriving DecidableEq

/-- `BranchAndFinancialInstitutionIdentification6.Validate`: the
`FinancialInstitutionID` is zero-checked via reflection, then recursively
validated with its violations folded into one wrapped violation. -/
def BranchAndFinancialInstitutionIdentification6.Validate
    (b : BranchAndFinancialInstitutionIdentification6) :
    Option ValidationErrors :=
  finish (
    requiredThen (validateRequired b.FinancialInstitutionID
        "FinancialInstitutionID")
      (wrap "FinancialInstitutionID" b.FinancialInstitutionID.Validate)
    ++ wrapOpt "BranchID" BranchData3.Validate b.BranchID)

/-- `SettlementInstruction7`. -/
structure SettlementInstruction7 where
  SettlementMethod : String
  SettlementAccount : Option CashAccount
  ClearingSystem : Option ClearingSystemIdentificationSecondary
  InstructingReimbursementAgent :
    Option BranchAndFinancialInstitutionIdentification6
  InstructingReimbursementAgentAccount : Option CashAccount
  InstructedReimbursementAgent :
    Option BranchAndFinancialInstitutionIdentification6
  InstructedReimbursementAgentAccount : Option CashAccount
  ThirdReimbursementAgent :
    Option BranchAndFinancialInstitutionIdentification6
  ThirdReimbursementAgentAccount : Option CashAccount
deriving DecidableEq

/-- Go `reflect.Value.IsZero` on a `SettlementInstruction7` value: the
method string must be empty and every pointer field nil. -/
instance : GoZero SettlementInstruction7 :=
  ⟨fun s => (s.SettlementMethod == "") && s.SettlementAccount.isNone &&
    s.ClearingSystem.isNone && s.InstructingReimbursementAgent.isNone &&
    s.InstructingReimbursementAgentAccount.isNone &&
    s.InstructedReimbursementAgent.isNone &&
    s.InstructedReimbursementAgentAccount.isNone &&
    s.ThirdReimbursementAgent.isNone &&
    s.ThirdReimbursementAgentAccount.isNone⟩

/-- The Go zero value of `SettlementInstruction7`. -/
def settlementInstruction7Zero : SettlementInstruction7 :=
  ⟨"", none, none, none, none, none, none, none, none⟩

/-- `ServiceLevel`. -/
structure ServiceLevel where
  Code : Option String
  Proprietary : Option String
deriving DecidableEq

/-- `LocalInstrument`. -/
structure LocalInstrument where
  Code : Option String
  Proprietary : Option String
deriving DecidableEq

/-- `CategoryPurpose`. -/
structure CategoryPurpose where
  Code : Option String
  Proprietary : Option String
deriving DecidableEq

/-- `PaymentTypeInfo28`. -/
structure PaymentTypeInfo28 where
  InstructionPriority : Option String
  ServiceLevel : List ServiceLevel
  LocalInstrument : Option LocalInstrument
  SequenceType : Option String
  CategoryPurpose : Option CategoryPurpose
deriving DecidableEq

/-- `PaymentTypeInfo28.Validate` (service level, local instrument and
category purpose are not validated by the source). -/
def PaymentTypeInfo28.Validate (p : PaymentTypeInfo28) :
    Option ValidationErrors :=
  finish (
    optCheck p.InstructionPriority
      (fun s => validateStringLength s 1 4 "InstructionPriority")
    ++ optCheck p.SequenceType
      (fun s => validateStringLength s 1 4 "SequenceType"))

/-- `GroupHeader93`. -/
structure GroupHeader93 where
  MessageID : String
  CreationDateTime : Option GoTime
  BatchBooking : Option Bool
  NumberOfTransactions : String
  ControlSum : Option GoFloat
  TotalInterbankSettlementAmount : Option ActiveCurrencyAndAmount
  InterbankSettlementDate : Option String
  SettlementInfo : SettlementInstruction7
  PaymentTypeInfo : Option PaymentTypeInfo28
  InstructingAgent : Option BranchAndFinancialInstitutionIdentification6
  InstructedAgent : Option BranchAndFinancialInstitutionIdentification6
deriving DecidableEq

/-- `GroupHeader93.Validate`: message id (required, Max35Text), number of
transactions (required, Max15NumericText), creation datetime (nil check),
settlement info (reflection zero check, then its method's zero check). -/
def GroupHeader93.Validate (g : GroupHeader93) : Option ValidationErrors :=
  finish (
    requiredThen (validateRequired g.MessageID "MsgId")
      (collect (validateStringLength g.MessageID 1 35 "MsgId"))
    ++ requiredThen (validateRequired g.NumberOfTransactions "NbOfTxs")
      (collect (validatePattern (max15NumericMatch g.NumberOfTransactions)
        max15NumericPatternText "NbOfTxs"))
    ++ (if g.CreationDateTime.isNone then [⟨"CreDtTm", "is required"⟩]
        else [])
    ++ requiredThen (validateRequired g.SettlementInfo "SttlmInf")
      (collect (validateRequired g.SettlementInfo.SettlementMethod
        "SttlmMtd")))

/-- `PostalAddress24`. -/
structure PostalAddress24 where
  AddressType : Option String
  Department : Option String
  SubDepartment : Option String
  StreetName : Option String
  BuildingNumber : Option String
  BuildingName : Option String
  Floor : Option String
  PostBox : Option String
  Room : Option String
  PostCode : Option String
  TownName : Option String
  TownLocationName : Option String
  DistrictName : Option String
  CountrySubDivision : Option String
  Country : Option String
  AddressLine : List String
deriving DecidableEq

/-- `PostalAddress24.Validate`. -/
def PostalAddress24.Validate (p : PostalAddress24) : Option ValidationErrors :=
  finish (
    optCheck p.Department (fun s => validateStringLength s 1 70 "Department")
    ++ optCheck p.StreetName (fun s => validateStringLength s 1 70 "StreetName")
    ++ optCheck p.BuildingNumber
      (fun s => validateStringLength s 1 16 "BuildingNumber")
    ++ optCheck p.PostCode (fun s => validateStringLength s 1 16 "PostCode")
    ++ optCheck p.TownName (fun s => validateStringLength s 1 35 "TownName")
    ++ optCheck p.Country (fun s => validateCountryCode s "Country"))

/-- `OtherContact1`. -/
structure OtherContact1 where
  ChannelType : String
  ID : Option String
deriving DecidableEq

/-- `Contact4`. -/
structure Contact4 where
  NamePrefix : Option String
  Name : Option String
  PhoneNumber : Option String
  MobileNumber : Option String
  FaxNumber : Option String
  EmailAddress : Option String
  EmailPurpose : Option String
  JobTitle : Option String
  Responsibility : Option String
  Department : Option String
  Other : List OtherContact1
  PreferredMethod : Option String
deriving DecidableEq

/-- `Contact4.Validate`. -/
def Contact4.Validate (c : Contact4) : Option ValidationErrors :=
  finish (
    optCheck c.Name (fun s => validateStringLength s 1 140 "Name")
    ++ optCheck c.EmailAddress
      (fun s => validateStringLength s 1 2048 "EmailAddress")
    ++ optCheck c.PhoneNumber
      (fun s => validateStringLength s 1 35 "PhoneNumber"))

/-- `OrganizationIdentificationSchemeName1`. -/
structure OrganizationIdentificationSchemeName1 where
  Code : Option String
  Proprietary : Option String
deriving DecidableEq

/-- `GenericOrganizationIdentification1`. -/
structure GenericOrganizationIdentification1 where
  ID : String
  SchemeName : Option OrganizationIdentificationSchemeName1
  Issuer : Option String
deriving DecidableEq

/-- `OrganizationIdentification29`. -/
structure OrganizationIdentification29 where
  AnyBankIdentifierCode : Option String
  LegalEntityIdentifier : Option String
  Other : List GenericOrganizationIdentification1
deriving DecidableEq

/-- `PersonIdentificationSchemeName2`. -/
structure PersonIdentificationSchemeName2 where
  Code : Option String
  Proprietary : Option String
deriving DecidableEq

/-- `GenericPersonIdentification2`. -/
structure GenericPersonIdentification2 where
  ID : String
  SchemeName : Option PersonIdentificationSchemeName2
  Issuer : Option String
deriving DecidableEq

/-- `DateAndPlaceOfBirth1`. -/
structure DateAndPlaceOfBirth1 where
  BirthDate : Option String
  ProvinceOfBirth : Option String
  CityOfBirth : String
  CountryOfBirth : String
deriving DecidableEq

/-- `PersonIdentification13`. -/
structure PersonIdentification13 where
  DateAndPlaceOfBirth : Option DateAndPlaceOfBirth1
  Other : List GenericPersonIdentification2
deriving DecidableEq

/-- `Party38`. -/
structure Party38 where
  OrganizationID : Option OrganizationIdentification29
  PrivateID : Option PersonIdentification13
deriving DecidableEq

/-- `PartyIdentification135`. -/
structure PartyIdentification135 where
  Name : Option String
  PostalAddress : Option PostalAddress24
  ID : Option Party38
  CountryOfResidence : Option String
  ContactDetails : Option Contact4
deriving DecidableEq

/-- `PartyIdentification135.Validate`: name length when set, then the
postal address and contact details recursively, each folded into a single
wrapped violation (`ID` and `CountryOfResidence` are not validated). -/
def PartyIdentification135.Validate (p : PartyIdentification135) :
    Option ValidationErrors :=
  finish (
    optCheck p.Name (fun s => validateStringLength s 1 140 "Name")
    ++ wrapOpt "PostalAddress" PostalAddress24.Validate p.PostalAddress
    ++ wrapOpt "ContactDetails" Contact4.Validate p.ContactDetails)

/-- `PaymentIdentification7`. -/
structure PaymentIdentification7 where
  InstructionID : Option String
  EndToEndID : String
  TransactionID : Option String
  UETR : Option String
  ClearingSystemReference : Option String
deriving DecidableEq

/-- `PaymentIdentification7.Validate`. -/
def PaymentIdentification7.Validate (p : PaymentIdentification7) :
    Option ValidationErrors :=
  finish (
    requiredThen (validateRequired p.EndToEndID "EndToEndID")
      (collect (validateStringLength p.EndToEndID 1 35 "EndToEndID"))
    ++ optCheck p.TransactionID
      (fun s => validateStringLength s 1 35 "TransactionID"))

/-- `AccountSchemeName1`. -/
structure AccountSchemeName1 where
  Code : Option String
  Proprietary : Option String
deriving DecidableEq

/-- `GenericAccountIdentification1`. -/
structure GenericAccountIdentification1 where
  ID : String
  SchemeName : Option AccountSchemeName1
  Issuer : Option String
deriving DecidableEq

/-- `GenericAccountIdentification1.Validate` (`SchemeName` is not validated
by the source). -/
def GenericAccountIdentification1.Validate
    (g : GenericAccountIdentification1) : Option ValidationErrors :=
  finish (
    requiredThen (validateRequired g.ID "ID")
      (collect (validateStringLength g.ID 1 34 "ID"))
    ++ optCheck g.Issuer (fun s => validateStringLength s 1 35 "Issuer"))

/-- `AccountIdentification4`: the IBAN/Other choice group. -/
structure AccountIdentification4 where
  IBAN : Option String
  Other : Option GenericAccountIdentification1
deriving DecidableEq

/-- `AccountIdentification4.Validate`: exactly one of IBAN and Other must be
set; a set IBAN is checked only for byte length 15 to 34 (the source notes
that format validation "could be added here" but performs none); a set Other
is validated recursively. -/
def AccountIdentification4.Validate (a : AccountIdentification4) :
    Option ValidationErrors :=
  finish (
    (if !a.IBAN.isSome && !a.Other.isSome then
      [⟨"Choice", "must have either IBAN or Other"⟩]
     else if a.IBAN.isSome && a.Other.isSome then
      [⟨"Choice", "cannot have both IBAN and Other"⟩]
     else [])
    ++ optCheck a.IBAN (fun s => validateStringLength s 15 34 "IBAN")
    ++ wrapOpt "Other" GenericAccountIdentification1.Validate a.Other)

/-- `CashAccountType2Choice`. -/
structure CashAccountType2Choice where
  Code : Option String
  Proprietary : Option String
deriving DecidableEq

/-- `ProxyAccountType1`. -/
structure ProxyAccountType1 where
  Code : Option String
  Proprietary : Option String
deriving DecidableEq

/-- `ProxyAccountIdentification1` (the Go field `Type` is rendered
`Type_`). -/
structure ProxyAccountIdentification1 where
  Type_ : Option ProxyAccountType1
  ID : String
deriving DecidableEq

/-- `CashAccount38` (the Go field `Type` is rendered `Type_`). -/
structure CashAccount38 where
  ID : AccountIdentification4
  Type_ : Option CashAccountType2Choice
  Currency : Option String
  Name : Option String
  Proxy : Option ProxyAccountIdentification1
deriving DecidableEq

/-- `CashAccount38.Validate`. -/
def CashAccount38.Validate (c : CashAccount38) : Option ValidationErrors :=
  finish (
    wrap "ID" c.ID.Validate
    ++ optCheck c.Currency (fun s => validateStringLength s 3 3 "Currency")
    ++ optCheck c.Name (fun s => validateStringLength s 1 70 "Name"))

/-- `CreditTransferTransaction39`.  The Go struct carries many further
payload fields (settlement dates and priorities, charges, the previous,
instructing and intermediary agents and their accounts, instructions,
purpose, regulatory reporting, tax, remittance and supplementary data) that
`Validate` never reads; they cannot influence any validator modelled here
and are omitted from the embedding. -/
structure CreditTransferTransaction39 where
  PaymentID : PaymentIdentification7
  PaymentTypeInfo : Option PaymentTypeInfo28
  InterbankSettlementAmount : ActiveCurrencyAndAmount
  ChargeBearer : String
  UltimateDebtor : Option PartyIdentification135
  Debtor : PartyIdentification135
  DebtorAccount : Option CashAccount38
  DebtorAgent : BranchAndFinancialInstitutionIdentification6
  CreditorAgent : BranchAndFinancialInstitutionIdentification6
  Creditor : PartyIdentification135
  CreditorAccount : Option CashAccount38
  UltimateCreditor : Option PartyIdentification135
deriving DecidableEq

/-- `CreditTransferTransaction39.Validate`: the required members are
validated in declaration order (payment id, settlement amount, charge
bearer, debtor, debtor agent, creditor, creditor agent), then the optional
members; nested violations are folded into one wrapped violation per
member.  No step aborts the remaining checks. -/
def CreditTransferTransaction39.Validate (c : CreditTransferTransaction39) :
    Option ValidationErrors :=
  finish (
    wrap "PaymentID" c.PaymentID.Validate
    ++ wrap "InterbankSettlementAmount" c.InterbankSettlementAmount.Validate
    ++ requiredThen (validateRequired c.ChargeBearer "ChargeBearer")
      (collect (validateStringLength c.ChargeBearer 1 4 "ChargeBearer"))
    ++ wrap "Debtor" c.Debtor.Validate
    ++ wrap "DebtorAgent" c.DebtorAgent.Validate
    ++ wrap "Creditor" c.Creditor.Validate
    ++ wrap "CreditorAgent" c.CreditorAgent.Validate
    ++ wrapOpt "PaymentTypeInfo" PaymentTypeInfo28.Validate c.PaymentTypeInfo
    ++ wrapOpt "DebtorAccount" CashAccount38.Validate c.DebtorAccount
    ++ wrapOpt "CreditorAccount" CashAccount38.Validate c.CreditorAccount
    ++ wrapOpt "UltimateDebtor" PartyIdentification135.Validate
      c.UltimateDebtor
    ++ wrapOpt "UltimateCreditor" PartyIdentification135.Validate
      c.UltimateCreditor)

/-- `SupplementaryDataEnvelope`. -/
structure SupplementaryDataEnvelope where
  Content : String
deriving DecidableEq

/-- `SupplementaryData`. -/
structure SupplementaryData where
  PlaceAndName : Option String
  Envelope : SupplementaryDataEnvelope
deriving DecidableEq

/-- `FIToFICustomerCreditTransferV08`. -/
structure FIToFICustomerCreditTransferV08 where
  GroupHeader : GroupHeader93
  CreditTransferTransactionInfo : List CreditTransferTransaction39
  SupplementaryData : List SupplementaryData
deriving DecidableEq

/-- `FIToFICustomerCreditTransferV08.Validate`: the group header is
validated (violations folded into one wrapped violation), the transaction
list must be non-empty, and each transaction is validated with its
violations folded into one wrapped violation whose field carries the
element's index. -/
def FIToFICustomerCreditTransferV08.Validate
    (f : FIToFICustomerCreditTransferV08) : Option ValidationErrors :=
  finish (
    wrap "GroupHeader" f.GroupHeader.Validate
    ++ (if f.CreditTransferTransactionInfo.isEmpty then
          [⟨"CreditTransferTransactionInfo",
            "at least one credit transfer transaction is required"⟩]
        else f.CreditTransferTransactionInfo.enum.flatMap (fun p =>
          wrap ("CreditTransferTransactionInfo[" ++ toString p.1 ++ "]")
            p.2.Validate)))

/-- `Party44`: the choice group between an organisation identification and
a financial institution identification. -/
structure Party44 where
  OrganisationIdentification : Option PartyIdentification135
  FinancialInstitutionID :
    Option BranchAndFinancialInstitutionIdentification6
deriving DecidableEq

/-- `Party44.Validate`: each set alternative is counted and recursively
validated (financial institution first, as in the source), then exactly-one
cardinality is enforced on the count. -/
def Party44.Validate (p : Party44) : Option ValidationErrors :=
  finish (
    wrapOpt "FinancialInstitutionID"
      BranchAndFinancialInstitutionIdentification6.Validate
      p.FinancialInstitutionID
    ++ wrapOpt "OrganisationIdentification" PartyIdentification135.Validate
      p.OrganisationIdentification
    ++ (if ((if p.FinancialInstitutionID.isSome then 1 else 0) +
          (if p.OrganisationIdentification.isSome then 1 else 0) : Nat) == 0
        then [⟨"Party44",
          "either FinancialInstitutionID or OrganisationIdentification must be provided"⟩]
        else if ((if p.FinancialInstitutionID.isSome then 1 else 0) +
          (if p.OrganisationIdentification.isSome then 1 else 0) : Nat) > 1
        then [⟨"Party44",
          "only one of FinancialInstitutionID or OrganisationIdentification can be provided"⟩]
        else []))

/-- Number of violations carried by a `Validate` result whose path equals
the given choice-group field name (`nil` results carry none). -/
def choiceViolations (fieldName : String) (r : Option ValidationErrors) :
    Nat :=
  (r.getD []).countP (fun e => e.Field == fieldName)

/-! Concrete sample values used by the witness and counterexample
theorems. -/

/-- A financial institution identification that passes validation. -/
def finInstValid : FinancialInstitutionIdentification18 :=
  ⟨none, none, none, some "Bank", none, none⟩

/-- An agent built from `finInstValid`; passes validation. -/
def agentValid : BranchAndFinancialInstitutionIdentification6 :=
  ⟨finInstValid, none⟩

/-- A 141-character name, one byte over the `Max140Text` bound. -/
def longName141 : String := String.mk (List.replicate 141 'a')

/-- A party identification that passes validation. -/
def partyValid : PartyIdentification135 :=
  ⟨some "Alice", none, none, none, none⟩

/-- A party identification whose name is 141 characters long. -/
def partyLongName : PartyIdentification135 :=
  ⟨some longName141, none, none, none, none⟩

/-- A payment identification that passes validation. -/
def payValid : PaymentIdentification7 := ⟨none, "E2E", none, none, none⟩

/-- An amount that passes validation. -/
def amtValid : ActiveCurrencyAndAmount := ⟨GoFloat.val 1, "USD"⟩

/-- The end-to-end scenario: charge bearer unset, creditor name too long,
everything else valid and the optional members unset. -/
def txChargeBearerUnset : CreditTransferTransaction39 :=
  ⟨payValid, none, amtValid, "", none, partyValid, none, agentValid,
    agentValid, partyLongName, none, none⟩

/-- A group header that passes validation. -/
def ghValid : GroupHeader93 :=
  ⟨"MSG1", some ⟨0⟩, none, "3", none, none, none,
    ⟨"CLRG", none, none, none, none, none, none, none, none⟩, none, none,
    none⟩

/-- A transaction that passes validation. -/
def txValid : CreditTransferTransaction39 :=
  ⟨payValid, none, amtValid, "SHAR", none, partyValid, none, agentValid,
    agentValid, partyValid, none, none⟩

/-- A transaction whose debtor name is 141 characters long. -/
def txDebtorLongName : CreditTransferTransaction39 :=
  ⟨payValid, none, amtValid, "SHAR", none, partyLongName, none, agentValid,
    agentValid, partyValid, none, none⟩

/-- A message whose third transaction (index 2) carries the long debtor
name. -/
def fiToFiSample : FIToFICustomerCreditTransferV08 :=
  ⟨ghValid, [txValid, txValid, txDebtorLongName], []⟩

/-- An agent whose financial institution name is 141 characters long. -/
def agentLongName : BranchAndFinancialInstitutionIdentification6 :=
  ⟨⟨none, none, none, some longName141, none, none⟩, none⟩

/-- A group header whose settlement info equals the Go zero value of
`SettlementInstruction7` while every other member is valid. -/
def ghSettlementZero : GroupHeader93 :=
  ⟨"MSG1", some ⟨0⟩, none, "3", none, none, none, settlementInstruction7Zero,
    none, none, none⟩

/-! Shared helper lemmas. -/

/-- A `Validate` epilogue returns the collected list whenever one consults
the result with a `[]` default. -/
theorem finish_getD (l : ValidationErrors) : (finish l).getD [] = l := by
  cases l <;> simp [finish, hasErrors]

/-- The epilogue returns `none` exactly for an empty collected list. -/
theorem finish_eq_none (l : ValidationErrors) : finish l = none ↔ l = [] := by
  cases l <;> simp [finish, hasErrors]

/-- The epilogue returns a non-empty collected list unchanged. -/
theorem finish_of_ne_nil (l : ValidationErrors) (h : l ≠ []) :
    finish l = some l := by
  cases l with
  | nil => exact absurd rfl h
  | cons a t => simp [finish, hasErrors]

/-- The epilogue yields `nil` or a non-empty violation list; nothing else. -/
theorem finish_cases (l : ValidationErrors) :
    finish l = none ∨ ∃ m, finish l = some m ∧ m ≠ [] := by
  cases l with
  | nil => exact Or.inl rfl
  | cons a t =>
    exact Or.inr ⟨a :: t, finish_of_ne_nil _ (by simp), by simp⟩

/-- A length check passes when the byte length is within bounds. -/
theorem validateStringLength_eq_none {s : String} {minLen maxLen : Nat}
    (fld : String) (h1 : minLen ≤ goLen s) (h2 : goLen s ≤ maxLen) :
    validateStringLength s minLen maxLen fld = none := by
  unfold validateStringLength
  rw [if_neg (by omega), if_neg (by omega)]

/-- A length check over the maximum reports the excess message. -/
theorem validateStringLength_exceeds {s : String} {minLen maxLen : Nat}
    (fld : String) (h1 : minLen ≤ goLen s) (h2 : maxLen < goLen s) :
    validateStringLength s minLen maxLen fld =
      some ⟨fld, "length " ++ toString (goLen s) ++
        (" exceeds maximum " ++ toString maxLen)⟩ := by
  unfold validateStringLength
  rw [if_neg (by omega), if_pos (by omega), String.append_assoc]

/-- A length-check violation carries the checked field's name as its path. -/
theorem validateStringLength_field {s : String} {minLen maxLen : Nat}
    {fld : String} {e : ValidationError}
    (h : validateStringLength s minLen maxLen fld = some e) : e.Field = fld := by
  unfold validateStringLength at h
  split at h
  · cases h; rfl
  · split at h
    · cases h; rfl
    · cases h

/-- An optional nested member contributes nothing when it is unset or
validates cleanly. -/
theorem wrapOpt_eq_nil {α : Type} {o : Option α}
    {f : α → Option ValidationErrors} (n : String)
    (h : ∀ x ∈ o, f x = none) : wrapOpt n f o = [] := by
  cases o with
  | none => rfl
  | some x => simp [wrapOpt, wrap, h x (by simp)]

/-- Characters in the `A`-`Z` range occupy one UTF-8 byte. -/
theorem utf8Size_one_of_upper {c : Char} (h : isUpperAZ c = true) :
    c.utf8Size = 1 := by
  unfold isUpperAZ at h
  rw [Bool.and_eq_true, decide_eq_true_iff, decide_eq_true_iff] at h
  have hz : c.val.toNat ≤ 90 := h.2
  have h127 : c.val ≤ (127 : UInt32) := by
    show c.val.toNat ≤ (127 : UInt32).toNat
    have : (127 : UInt32).toNat = 127 := rfl
    omega
  unfold Char.utf8Size
  rw [if_pos (show c.val ≤ UInt32.ofNatCore 127 Char.utf8Size.proof_1 from
    h127)]

/-- A string matching `^[A-Z]{3}$` is three bytes long. -/
theorem goLen_of_currencyPatternMatch {s : String}
    (h : currencyPatternMatch s = true) : goLen s = 3 := by
  unfold currencyPatternMatch at h
  unfold goLen
  split at h
  next a b c heq =>
    rw [Bool.and_eq_true, Bool.and_eq_true] at h
    rw [heq]
    simp [utf8Size_one_of_upper h.1.1, utf8Size_one_of_upper h.1.2,
      utf8Size_one_of_upper h.2]
  next => cases h

/-- The currency check passes exactly on the `^[A-Z]{3}$` shape. -/
theorem validateCurrency_eq_none_iff (s fld : String) :
    validateCurrency s fld = none ↔ currencyPatternMatch s = true := by
  constructor
  · intro h
    unfold validateCurrency at h
    split at h
    · cases h
    · unfold validatePattern at h
      by_cases hm : currencyPatternMatch s = true
      · exact hm
      · rw [if_neg (by simp [hm])] at h; cases h
  · intro h
    have hlen := goLen_of_currencyPatternMatch h
    unfold validateCurrency
    rw [validateStringLength_eq_none fld (by omega) (by omega)]
    simp [validatePattern, h]

/-- Claim C5: `validateDate` returns `nil` exactly for strings that match
the `^\d{4}-\d{2}-\d{2}$` shape and also survive the calendar parse; the
shape alone is not enough.  Concretely, `2023-12-25` passes while
`25-12-2023` (shape), `2023-13-45` (calendar, despite matching the shape)
and the empty string all fail. -/
theorem validateDate_shape_and_calendar :
    (∀ s fld : String, validateDate s fld = none ↔
      (datePatternMatch s = true ∧ dateParseOk s = true)) ∧
    validateDate "2023-12-25" "TestDate" = none ∧
    validateDate "25-12-2023" "TestDate" =
      some ⟨"TestDate", "date must be in YYYY-MM-DD format"⟩ ∧
    (datePatternMatch "2023-13-45" = true ∧
      validateDate "2023-13-45" "TestDate" =
        some ⟨"TestDate", "invalid date value"⟩) ∧
    validateDate "" "TestDate" = some ⟨"TestDate", "date is required"⟩ := by
  refine ⟨fun s fld => ?_, by decide, by decide, by decide, by decide⟩
  unfold validateDate
  by_cases he : s = ""
  · subst he
    rw [if_pos (show ("" == "") = true from rfl)]
    constructor
    · intro h; simp at h
    · intro h; exact absurd h.1 (by decide)
  · rw [if_neg (by simp [he])]
    by_cases hm : datePatternMatch s = true
    · rw [if_neg (by simp [validatePattern, hm])]
      by_cases hp : dateParseOk s = true
      · rw [if_neg (by simp [hp])]
        simp [hm, hp]
      · rw [if_pos (by simp [Bool.eq_false_iff.mpr hp])]
        simp [hp]
    · rw [if_pos (by simp [validatePattern, Bool.eq_false_iff.mpr hm])]
      simp [hm]

/-- Claim C4 counterexample: a calendar-valid datetime carrying a trailing
`Z` but no fractional seconds is rejected with a format violation, because
the pattern only admits `Z` after `.mmm`; the claim's expected `nil` result
does not hold. -/
theorem validateDateTime_bare_z_rejected :
    validateDateTime "2023-12-25T14:30:00Z" "TestDateTime" =
      some ⟨"TestDateTime",
        "datetime must be in YYYY-MM-DDTHH:MM:SS format"⟩ ∧
    ¬ validateDateTime "2023-12-25T14:30:00Z" "TestDateTime" = none := by
  refine ⟨by decide, by decide⟩

/-- Claim C4 (amended): `validateDateTime` accepts exactly the
calendar-valid strings of shape `YYYY-MM-DDTHH:MM:SS`, optionally followed
by `.mmm` which may itself be followed by `Z`; a trailing `Z` without
fractional seconds is rejected.  The three spec vectors pass, the
space-separated and out-of-range vectors fail. -/
theorem validateDateTime_shape_and_calendar :
    (∀ s fld : String, validateDateTime s fld = none ↔
      (dateTimePatternMatch s = true ∧ dateTimeParseOk s = true)) ∧
    validateDateTime "2023-12-25T14:30:00" "TestDateTime" = none ∧
    validateDateTime "2023-12-25T14:30:00.123" "TestDateTime" = none ∧
    validateDateTime "2023-12-25T14:30:00.123Z" "TestDateTime" = none ∧
    validateDateTime "2023-12-25 14:30:00" "TestDateTime" =
      some ⟨"TestDateTime",
        "datetime must be in YYYY-MM-DDTHH:MM:SS format"⟩ ∧
    validateDateTime "2023-13-45T25:70:99" "TestDateTime" =
      some ⟨"TestDateTime", "invalid datetime value"⟩ := by
  refine ⟨fun s fld => ?_, by decide, by decide, by decide, by decide,
    by decide⟩
  unfold validateDateTime
  by_cases he : s = ""
  · subst he
    rw [if_pos (show ("" == "") = true from rfl)]
    constructor
    · intro h; simp at h
    · intro h; exact absurd h.1 (by decide)
  · rw [if_neg (by simp [he])]
    by_cases hm : dateTimePatternMatch s = true
    · rw [if_neg (by simp [validatePattern, hm])]
      by_cases hp : dateTimeParseOk s = true
      · rw [if_neg (by simp [hp])]
        simp [hm, hp]
      · rw [if_pos (by simp [Bool.eq_false_iff.mpr hp])]
        simp [hp]
    · rw [if_pos (by simp [validatePattern, Bool.eq_false_iff.mpr hm])]
      simp [hm]

/-- Claim C7: a single violation renders as `Field '<path>': <message>`;
a non-empty list renders as those elements joined with `"; "` in list
order; the empty list renders as the empty string. -/
theorem validationErrors_render :
    (ValidationErrors.error [] = "") ∧
    (∀ e : ValidationError, ValidationError.error e =
      "Field " ++ sq ++ e.Field ++ sq ++ ": " ++ e.Message) ∧
    (∀ e : ValidationError,
      ValidationErrors.error [e] = ValidationError.error e) ∧
    (∀ (e : ValidationError) (rest : ValidationErrors), rest ≠ [] →
      ValidationErrors.error (e :: rest) =
        ValidationError.error e ++ "; " ++ ValidationErrors.error rest) ∧
    ValidationErrors.error [⟨"GrpHdr", "m1"⟩, ⟨"CdtTrfTxInf", "m2"⟩] =
      "Field " ++ sq ++ "GrpHdr" ++ sq ++ ": m1; Field " ++ sq ++
        "CdtTrfTxInf" ++ sq ++ ": m2" := by
  refine ⟨rfl, fun e => rfl, fun e => rfl, fun e rest h => ?_, by decide⟩
  cases rest with
  | nil => exact absurd rfl h
  | cons r t => simp [ValidationErrors.error, goStringsJoin, String.append_assoc]

/-- Claim C7 witness: the cons-case join at a concrete two-element list. -/
theorem validationErrors_render_witness :
    ValidationErrors.error [⟨"A", "x"⟩, ⟨"B", "y"⟩] =
      ValidationError.error ⟨"A", "x"⟩ ++ "; " ++
        ValidationErrors.error [⟨"B", "y"⟩] :=
  validationErrors_render.2.2.2.1 ⟨"A", "x"⟩ [⟨"B", "y"⟩] (by decide)

/-- Claim C10 counterexample: at `Value = NaN` with a valid currency the
validator returns `nil` although `Value > 0` is false — every IEEE
comparison against NaN is false, so the `Value <= 0` guard never fires —
refuting the claimed biconditional `nil exactly when Value > 0`. -/
theorem activeCurrencyAndAmount_nan_counterexample :
    ActiveCurrencyAndAmount.Validate ⟨GoFloat.nan, "USD"⟩ = none ∧
    GoFloat.lt (GoFloat.val 0) GoFloat.nan = false ∧
    currencyPatternMatch "USD" = true :=
  ⟨by decide, rfl, by decide⟩

/-- Claim C10 (amended): `ActiveCurrencyAndAmount.Validate` returns `nil`
exactly when the code’s IEEE test `Value <= 0` evaluates to false — for
ordinary numeric values that is `Value > 0`, but it also holds for NaN —
and the currency matches `^[A-Z]{3}$`; any `Value` with `Value <= 0` true
yields the `must be positive` violation on `Value`, an empty currency
yields the `is required` violation on `Ccy`, and both failures are
reported together in one result when both hold. -/
theorem activeCurrencyAndAmount_validate_ieee :
    ∀ a : ActiveCurrencyAndAmount,
      (a.Validate = none ↔
        (GoFloat.le a.Value (GoFloat.val 0) = false ∧
          currencyPatternMatch a.Currency = true)) ∧
      (∀ q : Rat, a.Value = GoFloat.val q →
        (a.Validate = none ↔
          (0 < q ∧ currencyPatternMatch a.Currency = true))) ∧
      (GoFloat.le a.Value (GoFloat.val 0) = true →
        (⟨"Value", "must be positive"⟩ : ValidationError) ∈
          (a.Validate.getD [])) ∧
      (a.Currency = "" → (⟨"Ccy", "is required"⟩ : ValidationError) ∈
        (a.Validate.getD [])) ∧
      (GoFloat.le a.Value (GoFloat.val 0) = true → a.Currency = "" →
        a.Validate = some [⟨"Value", "must be positive"⟩,
          ⟨"Ccy", "is required"⟩]) := by
  intro a
  have hiff : a.Validate = none ↔
      (GoFloat.le a.Value (GoFloat.val 0) = false ∧
        currencyPatternMatch a.Currency = true) := by
    constructor
    · intro h
      unfold ActiveCurrencyAndAmount.Validate at h
      rw [finish_eq_none, List.append_eq_nil] at h
      obtain ⟨h1, h2⟩ := h
      constructor
      · by_cases hle : GoFloat.le a.Value (GoFloat.val 0) = true
        · rw [if_pos hle] at h1; cases h1
        · exact Bool.eq_false_iff.mpr hle
      · by_cases hc : (a.Currency == "") = true
        · rw [if_pos hc] at h2; cases h2
        · rw [if_neg (by simp [hc])] at h2
          rw [← validateCurrency_eq_none_iff a.Currency "Ccy"]
          cases hcur : validateCurrency a.Currency "Ccy" with
          | none => rfl
          | some e => rw [hcur] at h2; cases h2
    · intro h
      obtain ⟨h1, h2⟩ := h
      unfold ActiveCurrencyAndAmount.Validate
      have hne : a.Currency ≠ "" := by
        intro hce
        rw [hce] at h2
        exact absurd h2 (by decide)
      rw [if_neg (by simp [h1]), if_neg (by simp [hne]),
        (validateCurrency_eq_none_iff a.Currency "Ccy").mpr h2]
      rfl
  refine ⟨hiff, fun q hq => ?_, fun hle => ?_, fun hc => ?_,
    fun hle hc => ?_⟩
  · rw [hiff, hq]
    have hq0 : GoFloat.le (GoFloat.val q) (GoFloat.val 0) = false ↔
        0 < q := by
      simp [GoFloat.le]
    rw [hq0]
  · unfold ActiveCurrencyAndAmount.Validate
    rw [finish_getD, if_pos hle]
    exact List.mem_append_left _ (by simp)
  · unfold ActiveCurrencyAndAmount.Validate
    rw [finish_getD]
    refine List.mem_append_right _ ?_
    rw [hc]
    simp
  · unfold ActiveCurrencyAndAmount.Validate
    rw [if_pos hle, hc]
    exact finish_of_ne_nil _ (by simp)

/-- Claim C10 witness: a finite negative amount with an empty currency
yields exactly the two violations together, and a finite positive amount
with a valid currency passes via the ordinary-value reading. -/
theorem activeCurrencyAndAmount_validate_ieee_witness :
    (GoFloat.le (GoFloat.val (-1)) (GoFloat.val 0) = true ∧
      (ActiveCurrencyAndAmount.mk (GoFloat.val (-1)) "").Currency = "") ∧
    ActiveCurrencyAndAmount.Validate ⟨GoFloat.val (-1), ""⟩ =
      some [⟨"Value", "must be positive"⟩, ⟨"Ccy", "is required"⟩] ∧
    (ActiveCurrencyAndAmount.Validate ⟨GoFloat.val 1, "USD"⟩ = none ↔
      ((0 : Rat) < 1 ∧ currencyPatternMatch "USD" = true)) :=
  ⟨⟨by decide, rfl⟩,
    (activeCurrencyAndAmount_validate_ieee ⟨GoFloat.val (-1), ""⟩).2.2.2.2
      (by decide) rfl,
    (activeCurrencyAndAmount_validate_ieee ⟨GoFloat.val 1, "USD"⟩).2.1 1
      rfl⟩

/-- Claim C6: every embedded `Validate` returns either `nil` (no
violations) or a non-empty violation list; a `some` result wrapping an
empty list is impossible, and the embedding is total, so no validation
panics or aborts. -/
theorem validate_none_or_nonempty :
    (∀ x : ActiveCurrencyAndAmount,
      x.Validate = none ∨ ∃ es, x.Validate = some es ∧ es ≠ []) ∧
    (∀ x : GroupHeader93,
      x.Validate = none ∨ ∃ es, x.Validate = some es ∧ es ≠ []) ∧
    (∀ x : PaymentIdentification7,
      x.Validate = none ∨ ∃ es, x.Validate = some es ∧ es ≠ []) ∧
    (∀ x : PartyIdentification135,
      x.Validate = none ∨ ∃ es, x.Validate = some es ∧ es ≠ []) ∧
    (∀ x : PostalAddress24,
      x.Validate = none ∨ ∃ es, x.Validate = some es ∧ es ≠ []) ∧
    (∀ x : Contact4,
      x.Validate = none ∨ ∃ es, x.Validate = some es ∧ es ≠ []) ∧
    (∀ x : BranchAndFinancialInstitutionIdentification6,
      x.Validate = none ∨ ∃ es, x.Validate = some es ∧ es ≠ []) ∧
    (∀ x : FinancialInstitutionIdentification18,
      x.Validate = none ∨ ∃ es, x.Validate = some es ∧ es ≠ []) ∧
    (∀ x : BranchData3,
      x.Validate = none ∨ ∃ es, x.Validate = some es ∧ es ≠ []) ∧
    (∀ x : GenericAccountIdentification1,
      x.Validate = none ∨ ∃ es, x.Validate = some es ∧ es ≠ []) ∧
    (∀ x : CashAccount38,
      x.Validate = none ∨ ∃ es, x.Validate = some es ∧ es ≠ []) ∧
    (∀ x : AccountIdentification4,
      x.Validate = none ∨ ∃ es, x.Validate = some es ∧ es ≠ []) ∧
    (∀ x : PaymentTypeInfo28,
      x.Validate = none ∨ ∃ es, x.Validate = some es ∧ es ≠ []) ∧
    (∀ x : CreditTransferTransaction39,
      x.Validate = none ∨ ∃ es, x.Validate = some es ∧ es ≠ []) ∧
    (∀ x : FIToFICustomerCreditTransferV08,
      x.Validate = none ∨ ∃ es, x.Validate = some es ∧ es ≠ []) ∧
    (∀ x : Party44,
      x.Validate = none ∨ ∃ es, x.Validate = some es ∧ es ≠ []) := by
  refine ⟨fun x => ?_, fun x => ?_, fun x => ?_, fun x => ?_, fun x => ?_,
    fun x => ?_, fun x => ?_, fun x => ?_, fun x => ?_, fun x => ?_,
    fun x => ?_, fun x => ?_, fun x => ?_, fun x => ?_, fun x => ?_,
    fun x => ?_⟩ <;>
    first
      | exact finish_cases _

/-- Claim C8: a set IBAN alternative is checked only for byte length
between 15 and 34 — every string in that range passes
`AccountIdentification4.Validate` regardless of shape (the concrete
all-lowercase sample passes while `validateIBAN`, which no `Validate`
method invokes, would reject it for its shape). -/
theorem accountIdentification4_iban_length_only :
    (∀ s : String, 15 ≤ goLen s → goLen s ≤ 34 →
      AccountIdentification4.Validate ⟨some s, none⟩ = none) ∧
    AccountIdentification4.Validate ⟨some "abcdefghijklmnop", none⟩ =
      none ∧
    validateIBAN "abcdefghijklmnop" "IBAN" =
      some ⟨"IBAN", "does not match required pattern " ++ sq ++
        ibanPatternText ++ sq⟩ := by
  refine ⟨fun s h1 h2 => ?_, by decide, by decide⟩
  unfold AccountIdentification4.Validate
  simp only [optCheck, wrapOpt, Option.isSome_some, Option.isSome_none,
    Bool.not_true, Bool.not_false, Bool.false_and, Bool.true_and,
    Bool.and_false, if_false, ite_false, ite_true]
  rw [validateStringLength_eq_none _ h1 h2]
  rfl

/-- Claim C8 witness: the concrete all-lowercase sample is in the length
range and passes. -/
theorem accountIdentification4_iban_length_only_witness :
    (15 ≤ goLen "abcdefghijklmnop" ∧ goLen "abcdefghijklmnop" ≤ 34) ∧
    AccountIdentification4.Validate ⟨some "abcdefghijklmnop", none⟩ =
      none :=
  ⟨⟨by decide, by decide⟩,
    accountIdentification4_iban_length_only.1 "abcdefghijklmnop"
      (by decide) (by decide)⟩

/-- Violations collected from a primitive check on one field never carry a
different field's path. -/
theorem countP_collect_of_field {o : Option ValidationError} {fld n : String}
    (hfld : ∀ e, o = some e → e.Field = fld) (hne : fld ≠ n) :
    (collect o).countP (fun e => e.Field == n) = 0 := by
  cases o with
  | none => rfl
  | some e =>
    have he : e.Field = fld := hfld e rfl
    simp [collect, List.countP_cons, he, hne]

/-- A wrapped nested result only carries the wrapping field's path. -/
theorem countP_wrap_ne {r : Option ValidationErrors} {fld n : String}
    (hne : fld ≠ n) :
    (wrap fld r).countP (fun e => e.Field == n) = 0 := by
  cases r with
  | none => rfl
  | some es => simp [wrap, List.countP_cons, hne]

/-- An optional wrapped nested result only carries the wrapping field's
path. -/
theorem countP_wrapOpt_ne {α : Type} {f : α → Option ValidationErrors}
    {o : Option α} {fld n : String} (hne : fld ≠ n) :
    (wrapOpt fld f o).countP (fun e => e.Field == n) = 0 := by
  cases o with
  | none => rfl
  | some x => exact countP_wrap_ne hne

/-- Claim C2: for both embedded choice groups, zero set alternatives yield
exactly one choice-cardinality violation, two set alternatives yield
exactly one choice-cardinality violation whatever they contain, and exactly
one set alternative yields zero cardinality violations while the chosen
alternative's own validation still runs, so its nested violations surface
in the result. -/
theorem choice_group_cardinality :
    (∀ a : AccountIdentification4,
      (a.IBAN = none → a.Other = none →
        a.Validate = some [⟨"Choice", "must have either IBAN or Other"⟩]) ∧
      (a.IBAN.isSome = true → a.Other.isSome = true →
        choiceViolations "Choice" a.Validate = 1) ∧
      (∀ s, a.IBAN = some s → a.Other = none →
        choiceViolations "Choice" a.Validate = 0 ∧
        (∀ e, validateStringLength s 15 34 "IBAN" = some e →
          a.Validate = some [e])) ∧
      (∀ g, a.IBAN = none → a.Other = some g →
        choiceViolations "Choice" a.Validate = 0 ∧
        (∀ es, g.Validate = some es →
          a.Validate = some [⟨"Other", ValidationErrors.error es⟩]))) ∧
    (∀ p : Party44,
      (p.FinancialInstitutionID = none →
        p.OrganisationIdentification = none →
        p.Validate = some [⟨"Party44",
          "either FinancialInstitutionID or OrganisationIdentification must be provided"⟩]) ∧
      (p.FinancialInstitutionID.isSome = true →
        p.OrganisationIdentification.isSome = true →
        choiceViolations "Party44" p.Validate = 1) ∧
      (∀ b, p.FinancialInstitutionID = some b →
        p.OrganisationIdentification = none →
        choiceViolations "Party44" p.Validate = 0 ∧
        (∀ es, b.Validate = some es →
          p.Validate = some [⟨"FinancialInstitutionID",
            ValidationErrors.error es⟩])) ∧
      (∀ o, p.FinancialInstitutionID = none →
        p.OrganisationIdentification = some o →
        choiceViolations "Party44" p.Validate = 0 ∧
        (∀ es, o.Validate = some es →
          p.Validate = some [⟨"OrganisationIdentification",
            ValidationErrors.error es⟩]))) := by
  constructor
  · intro a
    obtain ⟨ib, ot⟩ := a
    refine ⟨fun h1 h2 => ?_, fun h1 h2 => ?_, fun s h1 h2 => ⟨?_, ?_⟩,
      fun g h1 h2 => ⟨?_, ?_⟩⟩
    · subst h1; subst h2; rfl
    · rw [Option.isSome_iff_exists] at h1 h2
      obtain ⟨s, rfl⟩ := h1
      obtain ⟨g, rfl⟩ := h2
      unfold choiceViolations AccountIdentification4.Validate
      rw [finish_getD]
      simp only [optCheck, List.countP_append]
      rw [countP_collect_of_field (fun e h => validateStringLength_field h)
        (by decide), countP_wrapOpt_ne (show "Other" ≠ "Choice" by decide)]
      rfl
    · subst h1; subst h2
      unfold choiceViolations AccountIdentification4.Validate
      rw [finish_getD]
      simp only [optCheck, List.countP_append]
      rw [countP_collect_of_field (fun e h => validateStringLength_field h)
        (by decide), countP_wrapOpt_ne (show "Other" ≠ "Choice" by decide)]
      rfl
    · intro e he
      subst h1; subst h2
      unfold AccountIdentification4.Validate
      simp only [optCheck, wrapOpt, Option.isSome_some, Option.isSome_none,
        Bool.not_true, Bool.not_false, Bool.false_and, Bool.true_and,
        Bool.and_false, ite_false, ite_true]
      rw [he]
      rfl
    · subst h1; subst h2
      unfold choiceViolations AccountIdentification4.Validate
      rw [finish_getD]
      simp only [optCheck, List.countP_append]
      rw [countP_wrapOpt_ne (show "Other" ≠ "Choice" by decide)]
      rfl
    · intro es hes
      subst h1; subst h2
      unfold AccountIdentification4.Validate
      simp only [optCheck, wrapOpt, Option.isSome_some, Option.isSome_none,
        Bool.not_true, Bool.not_false, Bool.false_and, Bool.true_and,
        Bool.and_false, ite_false, ite_true]
      rw [hes]
      rfl
  · intro p
    obtain ⟨og, fi⟩ := p
    refine ⟨fun h1 h2 => ?_, fun h1 h2 => ?_, fun b h1 h2 => ⟨?_, ?_⟩,
      fun o h1 h2 => ⟨?_, ?_⟩⟩
    · subst h1; subst h2; rfl
    · rw [Option.isSome_iff_exists] at h1 h2
      obtain ⟨b, rfl⟩ := h1
      obtain ⟨o, rfl⟩ := h2
      unfold choiceViolations Party44.Validate
      rw [finish_getD]
      simp only [List.countP_append]
      rw [countP_wrapOpt_ne
          (show "FinancialInstitutionID" ≠ "Party44" by decide),
        countP_wrapOpt_ne
          (show "OrganisationIdentification" ≠ "Party44" by decide)]
      rfl
    · subst h1; subst h2
      unfold choiceViolations Party44.Validate
      rw [finish_getD]
      simp only [List.countP_append]
      rw [countP_wrapOpt_ne
          (show "FinancialInstitutionID" ≠ "Party44" by decide),
        countP_wrapOpt_ne
          (show "OrganisationIdentification" ≠ "Party44" by decide)]
      rfl
    · intro es hes
      subst h1; subst h2
      unfold Party44.Validate
      simp only [wrapOpt, Option.isSome_some, Option.isSome_none,
        ite_true, ite_false]
      rw [hes]
      rfl
    · subst h1; subst h2
      unfold choiceViolations Party44.Validate
      rw [finish_getD]
      simp only [List.countP_append]
      rw [countP_wrapOpt_ne
          (show "FinancialInstitutionID" ≠ "Party44" by decide),
        countP_wrapOpt_ne
          (show "OrganisationIdentification" ≠ "Party44" by decide)]
      rfl
    · intro es hes
      subst h1; subst h2
      unfold Party44.Validate
      simp only [wrapOpt, Option.isSome_some, Option.isSome_none,
        ite_true, ite_false]
      rw [hes]
      rfl

/-- Claim C2 witness: the cardinality counts and the surfacing of a chosen
alternative's nested violations at concrete choice-group values. -/
theorem choice_group_cardinality_witness :
    AccountIdentification4.Validate ⟨none, none⟩ =
      some [⟨"Choice", "must have either IBAN or Other"⟩] ∧
    Party44.Validate ⟨none, none⟩ =
      some [⟨"Party44",
        "either FinancialInstitutionID or OrganisationIdentification must be provided"⟩] ∧
    choiceViolations "Choice" (AccountIdentification4.Validate
      ⟨some "DE00ABCDEFGHIJK", some ⟨"X", none, none⟩⟩) = 1 ∧
    choiceViolations "Party44" (Party44.Validate
      ⟨some partyValid, some agentValid⟩) = 1 ∧
    choiceViolations "Choice"
      (AccountIdentification4.Validate ⟨some "short", none⟩) = 0 ∧
    AccountIdentification4.Validate ⟨some "short", none⟩ =
      some [⟨"IBAN", "length 5 is below minimum 15"⟩] ∧
    Party44.Validate ⟨none, some ⟨⟨none, none, none, some "", none, none⟩,
        none⟩⟩ =
      some [⟨"FinancialInstitutionID", ValidationErrors.error
        [⟨"FinancialInstitutionID", ValidationErrors.error
          [⟨"Name", "length 0 is below minimum 1"⟩]⟩]⟩] :=
  ⟨(choice_group_cardinality.1 ⟨none, none⟩).1 rfl rfl,
    (choice_group_cardinality.2 ⟨none, none⟩).1 rfl rfl,
    (choice_group_cardinality.1 _).2.1 rfl rfl,
    (choice_group_cardinality.2 _).2.1 rfl rfl,
    ((choice_group_cardinality.1 _).2.2.1 "short" rfl rfl).1,
    ((choice_group_cardinality.1 _).2.2.1 "short" rfl rfl).2 _ (by decide),
    ((choice_group_cardinality.2 _).2.2.1
      ⟨⟨none, none, none, some "", none, none⟩, none⟩ rfl rfl).2 _
      (by decide)⟩

/-- Claim C9: `validateRequired` reports a violation for a nil pointer and
for any value equal to its Go zero value, so a required value-typed field
holding the zero value is indistinguishable from an absent one: a
`GroupHeader93` whose settlement info equals the zero
`SettlementInstruction7` yields the presence violation at `SttlmInf` even
though the field is structurally present. -/
theorem validateRequired_zero_value :
    (∀ fld : String,
      validateRequiredPtr (none : Option SettlementInstruction7) fld =
        some ⟨fld, "is required but is nil"⟩) ∧
    (∀ (s : SettlementInstruction7) (fld : String), GoZero.isZero s = true →
      validateRequired s fld = some ⟨fld, "is required but is empty"⟩) ∧
    GoZero.isZero settlementInstruction7Zero = true ∧
    (∀ g : GroupHeader93, g.SettlementInfo = settlementInstruction7Zero →
      ∃ l, g.Validate = some l ∧
        (⟨"SttlmInf", "is required but is empty"⟩ : ValidationError) ∈ l) := by
  refine ⟨fun fld => rfl, fun s fld h => ?_, by decide, fun g hg => ?_⟩
  · unfold validateRequired
    rw [if_pos h]
  · unfold GroupHeader93.Validate
    have hm : (⟨"SttlmInf", "is required but is empty"⟩ : ValidationError) ∈
        requiredThen (validateRequired g.SettlementInfo "SttlmInf")
          (collect (validateRequired g.SettlementInfo.SettlementMethod
            "SttlmMtd")) := by
      rw [hg]
      decide
    have hm2 := List.mem_append_right
      (requiredThen (validateRequired g.MessageID "MsgId")
          (collect (validateStringLength g.MessageID 1 35 "MsgId"))
        ++ requiredThen (validateRequired g.NumberOfTransactions "NbOfTxs")
          (collect (validatePattern
            (max15NumericMatch g.NumberOfTransactions)
            max15NumericPatternText "NbOfTxs"))
        ++ (if g.CreationDateTime.isNone then
            [⟨"CreDtTm", "is required"⟩] else [])) hm
    exact ⟨_, finish_of_ne_nil _ (List.ne_nil_of_mem hm2), hm2⟩

/-- Claim C9 witness: the group header whose settlement info is the zero
struct yields the `SttlmInf` presence violation. -/
theorem validateRequired_zero_value_witness :
    validateRequired settlementInstruction7Zero "SttlmInf" =
      some ⟨"SttlmInf", "is required but is empty"⟩ ∧
    ∃ l, GroupHeader93.Validate ghSettlementZero = some l ∧
      (⟨"SttlmInf", "is required but is empty"⟩ : ValidationError) ∈ l :=
  ⟨validateRequired_zero_value.2.1 _ _ (by decide),
    validateRequired_zero_value.2.2.2 ghSettlementZero (by decide)⟩

set_option maxRecDepth 20000 in
/-- Claim C3 counterexample: in the message whose transaction at index 2
carries an over-long debtor name, the nested violation surfaces as a single
violation whose path is exactly `CreditTransferTransactionInfo[2]` — the
nested components `Debtor` and `Name` appear only inside the message text —
and no violation carries the claimed prefixed path
`CreditTransferTransactionInfo[2].Debtor.Name`. -/
theorem nested_path_folded_counterexample :
    FIToFICustomerCreditTransferV08.Validate fiToFiSample =
      some [⟨"CreditTransferTransactionInfo[2]",
        "Field " ++ sq ++ "Debtor" ++ sq ++ ": Field " ++ sq ++ "Name" ++
          sq ++ ": length 141 exceeds maximum 140"⟩] ∧
    ∀ e ∈ (FIToFICustomerCreditTransferV08.Validate fiToFiSample).getD [],
      e.Field ≠ "CreditTransferTransactionInfo[2].Debtor.Name" := by
  exact ⟨by decide, by decide⟩

/-- Claim C3 (amended): when validation recurses into a nested structure or
an indexed array element, the nested violations are folded into ONE
reported violation whose path is exactly the containing field's name (with
`[i]` appended for array elements) and whose message is the rendered join
of the nested violations; the nested fields' own path components appear in
the message text, not in the path. -/
theorem nested_path_folded :
    (∀ (f : FIToFICustomerCreditTransferV08) (i : Nat)
      (tx : CreditTransferTransaction39) (es : ValidationErrors),
      f.CreditTransferTransactionInfo[i]? = some tx →
      tx.Validate = some es →
      (⟨"CreditTransferTransactionInfo[" ++ toString i ++ "]",
        ValidationErrors.error es⟩ : ValidationError) ∈
        (f.Validate.getD [])) ∧
    (∀ (b : BranchAndFinancialInstitutionIdentification6)
      (es : ValidationErrors),
      GoZero.isZero b.FinancialInstitutionID = false →
      b.FinancialInstitutionID.Validate = some es →
      (⟨"FinancialInstitutionID", ValidationErrors.error es⟩ :
        ValidationError) ∈ (b.Validate.getD [])) := by
  constructor
  · intro f i tx es hget hval
    unfold FIToFICustomerCreditTransferV08.Validate
    rw [finish_getD]
    refine List.mem_append_right _ ?_
    have hne : f.CreditTransferTransactionInfo ≠ [] := by
      intro h
      rw [h] at hget
      simp at hget
    rw [if_neg (by simp [List.isEmpty_iff, hne])]
    rw [List.mem_flatMap]
    refine ⟨(i, tx), List.mem_enum_iff_getElem?.mpr hget, ?_⟩
    rw [hval]
    simp [wrap]
  · intro b es hz hval
    unfold BranchAndFinancialInstitutionIdentification6.Validate
    rw [finish_getD]
    refine List.mem_append_left _ ?_
    unfold validateRequired
    rw [if_neg (by simp [hz])]
    simp [requiredThen, wrap, hval]

set_option maxRecDepth 20000 in
/-- Claim C3 witness: the folded violations at the concrete message and the
concrete agent. -/
theorem nested_path_folded_witness :
    (⟨"CreditTransferTransactionInfo[2]", ValidationErrors.error
      [⟨"Debtor", ValidationErrors.error
        [⟨"Name", "length 141 exceeds maximum 140"⟩]⟩]⟩ : ValidationError) ∈
      ((FIToFICustomerCreditTransferV08.Validate fiToFiSample).getD []) ∧
    (⟨"FinancialInstitutionID", ValidationErrors.error
      [⟨"Name", "length 141 exceeds maximum 140"⟩]⟩ : ValidationError) ∈
      ((BranchAndFinancialInstitutionIdentification6.Validate
        agentLongName).getD []) :=
  ⟨nested_path_folded.1 fiToFiSample 2 txDebtorLongName _ (by decide)
      (by decide),
    nested_path_folded.2 agentLongName _ (by decide) (by decide)⟩

/-- Claim C1: for every transaction whose charge bearer is unset (empty
string), whose debtor agent validates cleanly, whose creditor has a name
over 140 bytes but otherwise validates cleanly, whose remaining required
members (payment id, settlement amount, debtor, creditor agent) validate
cleanly and whose optional members contribute no violations, `Validate`
reports exactly two violations in one pass: the presence violation at
`ChargeBearer` and the violation carrying the creditor name's length
failure — sibling validation is not skipped after the first violation. -/
theorem two_violations_one_pass (c : CreditTransferTransaction39)
    (nm : String)
    (hPay : c.PaymentID.Validate = none)
    (hAmt : c.InterbankSettlementAmount.Validate = none)
    (hCB : c.ChargeBearer = "")
    (hDebtor : c.Debtor.Validate = none)
    (hDbtrAgt : c.DebtorAgent.Validate = none)
    (hCdtrAgt : c.CreditorAgent.Validate = none)
    (hName : c.Creditor.Name = some nm)
    (hLong : 140 < goLen nm)
    (hCpa : ∀ x ∈ c.Creditor.PostalAddress, x.Validate = none)
    (hCd : ∀ x ∈ c.Creditor.ContactDetails, x.Validate = none)
    (hPTI : ∀ x ∈ c.PaymentTypeInfo, x.Validate = none)
    (hDA : ∀ x ∈ c.DebtorAccount, x.Validate = none)
    (hCA : ∀ x ∈ c.CreditorAccount, x.Validate = none)
    (hUD : ∀ x ∈ c.UltimateDebtor, x.Validate = none)
    (hUC : ∀ x ∈ c.UltimateCreditor, x.Validate = none) :
    c.Validate = some
      [⟨"ChargeBearer", "is required but is empty"⟩,
       ⟨"Creditor", ValidationErrors.error [⟨"Name",
         "length " ++ toString (goLen nm) ++ " exceeds maximum 140"⟩]⟩] := by
  have hCred : c.Creditor.Validate = some [⟨"Name",
      "length " ++ toString (goLen nm) ++ " exceeds maximum 140"⟩] := by
    unfold PartyIdentification135.Validate
    rw [hName]
    simp only [optCheck]
    rw [validateStringLength_exceeds "Name" (by omega) (by omega),
      wrapOpt_eq_nil _ hCpa, wrapOpt_eq_nil _ hCd]
    rfl
  unfold CreditTransferTransaction39.Validate
  rw [hPay, hAmt, hDebtor, hDbtrAgt, hCdtrAgt, hCred, hCB,
    wrapOpt_eq_nil _ hPTI, wrapOpt_eq_nil _ hDA, wrapOpt_eq_nil _ hCA,
    wrapOpt_eq_nil _ hUD, wrapOpt_eq_nil _ hUC]
  rfl

set_option maxRecDepth 20000 in
/-- Claim C1 witness: the concrete end-to-end scenario yields exactly the
two violations. -/
theorem two_violations_one_pass_witness :
    (txChargeBearerUnset.ChargeBearer = "" ∧
      txChargeBearerUnset.Creditor.Name = some longName141 ∧
      140 < goLen longName141 ∧
      txChargeBearerUnset.DebtorAgent.Validate = none) ∧
    txChargeBearerUnset.Validate = some
      [⟨"ChargeBearer", "is required but is empty"⟩,
       ⟨"Creditor", ValidationErrors.error [⟨"Name",
         "length " ++ toString (goLen longName141) ++
           " exceeds maximum 140"⟩]⟩] :=
  ⟨⟨rfl, rfl, by decide, by decide⟩,
    two_violations_one_pass txChargeBearerUnset longName141 (by decide)
      (by decide) rfl (by decide) (by decide) (by decide) rfl (by decide)
      (by simp [txChargeBearerUnset, partyLongName])
      (by simp [txChargeBearerUnset, partyLongName])
      (by simp [txChargeBearerUnset]) (by simp [txChargeBearerUnset])
      (by simp [txChargeBearerUnset]) (by simp [txChargeBearerUnset])
      (by simp [txChargeBearerUnset])⟩

end ISO20022
